import Mathlib

/-!
Shallow embedding of the post-mortem-analyzer LLM reliability pipeline
(src/services.py, with its caller in src/main.py) and proofs of the
specification claims about it.

Strings are modelled as `List Char`.  The remote model and the network are
modelled as an oracle `Nat → Except Exc Str` giving, for each attempt
number, either the raw response text or the exception raised by that
attempt.  External-library behaviour that the code relies on (the
`openai` exception class hierarchy, `tenacity`'s retry/backoff, Python's
`json`, `re` and `str` builtins) is modelled from the documented
semantics of those libraries.
-/

set_option maxRecDepth 100000

namespace PostMortem

/-- Python strings, modelled as lists of characters. -/
abbrev Str := List Char

/-- Shorthand turning a Lean string literal into the `List Char` model. -/
def sd (s : String) : Str := s.data

/-- Characters stripped by Python's `str.strip()` (default whitespace set). -/
def pySpace (c : Char) : Bool :=
  c = ' ' || c = '\t' || c = '\n' || c = '\r' || c = '\x0b' || c = '\x0c'

/-- `str.strip()`: drop whitespace from both ends. -/
def pyStrip (s : Str) : Str :=
  ((s.dropWhile pySpace).reverse.dropWhile pySpace).reverse

/-- `s.startswith(pat)`: `pat` begins the list. -/
def leadsWith : Str → Str → Bool
  | [], _ => true
  | _ :: _, [] => false
  | p :: ps, c :: cs => p = c && leadsWith ps cs

/-- `s.endswith(pat)`: `pat` ends the list. -/
def trailsWith (pat s : Str) : Bool :=
  leadsWith pat.reverse s.reverse

/-- Python slice `s[a:-b]` (for `b > 0`): drop the first `a` and last `b`. -/
def pySlice (a b : Nat) (s : Str) : Str :=
  (s.drop a).take (s.length - a - b)

/-- Index of the first occurrence of `c`, if any. -/
def firstIdx (c : Char) : Str → Option Nat
  | [] => none
  | d :: ds => if d = c then some 0 else (firstIdx c ds).map (· + 1)

/-!
## Exceptions

Modelled from the `openai` python library (external dependency): its
documented exception hierarchy is

`OpenAIError < Exception`;
`APIError < OpenAIError`;
`APIStatusError < APIError`; `APIConnectionError < APIError`;
`APITimeoutError < APIConnectionError`;
`BadRequestError, AuthenticationError, RateLimitError,
 InternalServerError < APIStatusError`.

`otherException` stands for any exception outside that hierarchy.
-/

inductive Exc where
  | openAIError
  | apiError
  | apiStatusError
  | apiConnectionError
  | apiTimeoutError
  | badRequestError
  | authenticationError
  | rateLimitError
  | internalServerError
  | otherException
  deriving DecidableEq, Repr

/-- The class together with all its superclasses (reflexive-transitive
ancestry in the `openai` hierarchy). -/
def Exc.ancestors : Exc → List Exc
  | .openAIError => [.openAIError]
  | .apiError => [.apiError, .openAIError]
  | .apiStatusError => [.apiStatusError, .apiError, .openAIError]
  | .apiConnectionError => [.apiConnectionError, .apiError, .openAIError]
  | .apiTimeoutError => [.apiTimeoutError, .apiConnectionError, .apiError, .openAIError]
  | .badRequestError => [.badRequestError, .apiStatusError, .apiError, .openAIError]
  | .authenticationError => [.authenticationError, .apiStatusError, .apiError, .openAIError]
  | .rateLimitError => [.rateLimitError, .apiStatusError, .apiError, .openAIError]
  | .internalServerError => [.internalServerError, .apiStatusError, .apiError, .openAIError]
  | .otherException => [.otherException]

/-- Python `isinstance(e, c)` over the modelled hierarchy. -/
def Exc.isInst (e c : Exc) : Bool := c ∈ e.ancestors

/-- `str(e)` for each modelled exception (representative messages;
non-empty in every case, as produced by the libraries). -/
def Exc.msg : Exc → Str
  | .openAIError => sd "OpenAI error"
  | .apiError => sd "API error"
  | .apiStatusError => sd "API status error"
  | .apiConnectionError => sd "Connection error."
  | .apiTimeoutError => sd "Request timed out."
  | .badRequestError => sd "Bad request"
  | .authenticationError => sd "Incorrect API key provided"
  | .rateLimitError => sd "Rate limit reached"
  | .internalServerError => sd "Internal server error"
  | .otherException => sd "unexpected failure"

/-!
## Model Invoker (src/services.py lines 99-122)

`analyze_with_llm` is the network call wrapped in tenacity's
`@retry(stop=stop_after_attempt(5),
        wait=wait_exponential(multiplier=1, min=4, max=30),
        retry=retry_if_exception_type((APIError, APIConnectionError,
                                       RateLimitError, BadRequestError)),
        reraise=True)`.
Modelled from tenacity's documented semantics: after a failed attempt
`a`, the exception is retried iff it is an instance of one of the listed
classes; at most 5 attempts are made; the sleep before attempt `a+1` is
`max 4 (min (1 * 2 ^ a) 30)` seconds; once attempts are exhausted (or the
exception is not retryable) the last exception is re-raised (`reraise`).
-/

/-- The retry predicate of the decorator: instance of any member of the
tuple `(APIError, APIConnectionError, RateLimitError, BadRequestError)`. -/
def isRetryable (e : Exc) : Bool :=
  e.isInst .apiError || e.isInst .apiConnectionError ||
  e.isInst .rateLimitError || e.isInst .badRequestError

/-- `wait_exponential(multiplier=1, min=4, max=30)` evaluated after the
failure of attempt `a` (attempt numbers start at 1). -/
def waitExp (a : Nat) : Nat := max 4 (min (2 ^ a) 30)

deriving instance DecidableEq for Except

/-- Outcome of the retrying invoker: final result (the response text or
the re-raised exception), the number of requests issued, and the list of
backoff delays slept between consecutive attempts. -/
structure RetryResult where
  outcome : Except Exc Str
  requests : Nat
  delays : List Nat
  deriving DecidableEq, Repr

/-- The tenacity retry loop: `a` is the current attempt number, `fuel`
the number of attempts still allowed (initially 5). -/
def retryAux (f : Nat → Except Exc Str) : Nat → Nat → RetryResult
  | _, 0 => ⟨.error .otherException, 0, []⟩
  | a, 1 => ⟨f a, 1, []⟩
  | a, n + 2 =>
    match f a with
    | .ok s => ⟨.ok s, 1, []⟩
    | .error e =>
      if isRetryable e then
        let r := retryAux f (a + 1) (n + 1)
        ⟨r.outcome, r.requests + 1, waitExp a :: r.delays⟩
      else ⟨.error e, 1, []⟩

/-- `analyze_with_llm` under the oracle `f` mapping attempt numbers to
that attempt's outcome (the chat-completion content, or the exception the
client raised). -/
def analyze_with_llm (f : Nat → Except Exc Str) : RetryResult :=
  retryAux f 1 5

/-!
## JSON values and `json.loads`

Values produced by Python's `json.loads`: numbers written without a
fraction or exponent become Python `int`s, all other numbers become
`float`s (modelled exactly as `m * 10 ^ e`, which is what decides the
later `int(...)` coercions in the pipeline).  Objects are key-ordered
association lists with unique keys, as Python dicts are.
-/

inductive Json where
  | null
  | bool (b : Bool)
  | str (s : Str)
  | int (n : Int)
  | float (m : Int) (e : Int)
  | arr (xs : List Json)
  | obj (kvs : List (Str × Json))
  deriving Repr

mutual

def Json.beq : Json → Json → Bool
  | .null, .null => true
  | .bool a, .bool b => a = b
  | .str a, .str b => a = b
  | .int a, .int b => a = b
  | .float a b, .float c d => a = c && b = d
  | .arr a, .arr b => Json.beqList a b
  | .obj a, .obj b => Json.beqKvs a b
  | _, _ => false

def Json.beqList : List Json → List Json → Bool
  | [], [] => true
  | a :: as, b :: bs => Json.beq a b && Json.beqList as bs
  | _, _ => false

def Json.beqKvs : List (Str × Json) → List (Str × Json) → Bool
  | [], [] => true
  | (k, v) :: as, (l, w) :: bs => k = l && Json.beq v w && Json.beqKvs as bs
  | _, _ => false

end

mutual

theorem Json.beq_iff : ∀ a b : Json, Json.beq a b = true ↔ a = b
  | .null, b => by cases b <;> simp [Json.beq]
  | .bool x, b => by cases b <;> simp [Json.beq]
  | .str x, b => by cases b <;> simp [Json.beq]
  | .int x, b => by cases b <;> simp [Json.beq]
  | .float x y, b => by cases b <;> simp [Json.beq]
  | .arr xs, b => by
      cases b <;> simp [Json.beq]
      exact Json.beqList_iff xs _
  | .obj kvs, b => by
      cases b <;> simp [Json.beq]
      exact Json.beqKvs_iff kvs _

theorem Json.beqList_iff : ∀ a b : List Json, Json.beqList a b = true ↔ a = b
  | [], b => by cases b <;> simp [Json.beqList]
  | a :: as, b => by
      cases b with
      | nil => simp [Json.beqList]
      | cons c cs =>
        simp [Json.beqList, Json.beq_iff a c, Json.beqList_iff as cs]

theorem Json.beqKvs_iff : ∀ a b : List (Str × Json), Json.beqKvs a b = true ↔ a = b
  | [], b => by cases b <;> simp [Json.beqKvs]
  | (k, v) :: as, b => by
      cases b with
      | nil => simp [Json.beqKvs]
      | cons c cs =>
        obtain ⟨l, w⟩ := c
        simp [Json.beqKvs, Json.beq_iff v w, Json.beqKvs_iff as cs, and_assoc]

end

instance : DecidableEq Json := fun a b =>
  decidable_of_iff (Json.beq a b = true) (Json.beq_iff a b)

/-- Keys of a JSON object (empty for non-objects). -/
def Json.keys : Json → List Str
  | .obj kvs => kvs.map Prod.fst
  | _ => []

/-- Association-list lookup used for dict access. -/
def lookupKey (k : Str) : List (Str × Json) → Option Json
  | [] => none
  | (l, v) :: rest => if l = k then some v else lookupKey k rest

/-- `d[k] = v` on a dict: replace the value at `k` keeping its position,
or append the pair when `k` is absent (Python dict insertion order). -/
def dictSet (k : Str) (v : Json) : List (Str × Json) → List (Str × Json)
  | [] => [(k, v)]
  | (l, w) :: rest => if l = k then (k, v) :: rest else (l, w) :: dictSet k v rest

/-!
### The parser (Python `json.loads`, strict mode)

Fuelled recursive descent over the character list; `pyJsonLoads` below
supplies ample fuel, and fuel exhaustion is reported as a parse error
(the pipeline treats every parse error alike).  Simplifications relative
to CPython's decoder, in regions no claim exercises: the `NaN/Infinity`
literals are not accepted, and `\uXXXX` escapes are decoded without
surrogate-pair combination.
-/

/-- JSON insignificant whitespace (space, tab, newline, carriage return). -/
def jsonWS (c : Char) : Bool :=
  c = ' ' || c = '\t' || c = '\n' || c = '\r'

def skipWS (s : Str) : Str := s.dropWhile jsonWS

def hexVal (c : Char) : Option Nat :=
  if '0' ≤ c ∧ c ≤ '9' then some (c.toNat - '0'.toNat)
  else if 'a' ≤ c ∧ c ≤ 'f' then some (c.toNat - 'a'.toNat + 10)
  else if 'A' ≤ c ∧ c ≤ 'F' then some (c.toNat - 'A'.toNat + 10)
  else none

/-- Body of a JSON string after the opening quote: returns the decoded
characters and the input remaining after the closing quote. -/
def parseStrBody : Str → Except Str (Str × Str)
  | [] => .error (sd "Unterminated string")
  | '"' :: rest => .ok ([], rest)
  | '\\' :: esc =>
    match esc with
    | 'u' :: a :: b :: c :: d :: rest =>
      match hexVal a, hexVal b, hexVal c, hexVal d with
      | some x, some y, some z, some w =>
        match parseStrBody rest with
        | .ok (cs, r) => .ok (Char.ofNat (((x * 16 + y) * 16 + z) * 16 + w) :: cs, r)
        | .error m => .error m
      | _, _, _, _ => .error (sd "Invalid \\uXXXX escape")
    | e :: rest =>
      let dec : Option Char :=
        if e = '"' then some '"' else if e = '\\' then some '\\'
        else if e = '/' then some '/' else if e = 'b' then some '\x08'
        else if e = 'f' then some '\x0c' else if e = 'n' then some '\n'
        else if e = 'r' then some '\r' else if e = 't' then some '\t'
        else none
      match dec with
      | some c =>
        match parseStrBody rest with
        | .ok (cs, r) => .ok (c :: cs, r)
        | .error m => .error m
      | none => .error (sd "Invalid \\escape")
    | [] => .error (sd "Unterminated string")
  | c :: rest =>
    if c.toNat < 32 then .error (sd "Invalid control character")
    else
      match parseStrBody rest with
      | .ok (cs, r) => .ok (c :: cs, r)
      | .error m => .error m

/-- Digit run: value and count of digits consumed, with the remainder. -/
def parseDigits : Str → Nat → Nat → (Nat × Nat × Str)
  | c :: rest, acc, n =>
    if c.isDigit then parseDigits rest (acc * 10 + (c.toNat - '0'.toNat)) (n + 1)
    else (acc, n, c :: rest)
  | [], acc, n => (acc, n, [])

/-- Assemble the parsed number: ints (no fraction, no exponent) become
`Json.int`; the rest `Json.float m e` with value `m * 10 ^ e`. -/
def mkNum (neg : Bool) (ip frac fracLen : Nat) (hasFrac hasExp : Bool)
    (expv : Int) (rest : Str) : Except Str (Json × Str) :=
  let mag : Int := ip * 10 ^ fracLen + frac
  let m : Int := if neg then -mag else mag
  if hasFrac || hasExp then .ok (Json.float m (expv - fracLen), rest)
  else .ok (Json.int m, rest)

/-- Optional `[eE][+-]?[0-9]+` exponent after integer/fraction parts. -/
def parseExpPart (neg : Bool) (ip frac fracLen : Nat) (hasFrac : Bool)
    (s3 : Str) : Except Str (Json × Str) :=
  match s3 with
  | e :: rest =>
    if e = 'e' ∨ e = 'E' then
      let (esign, r1) := match rest with
        | '+' :: r => ((1 : Int), r)
        | '-' :: r => ((-1 : Int), r)
        | _ => ((1 : Int), rest)
      let (ev, en, r2) := parseDigits r1 0 0
      if en = 0 then .error (sd "Expecting exponent digits")
      else mkNum neg ip frac fracLen hasFrac true (esign * ev) r2
    else mkNum neg ip frac fracLen hasFrac false 0 s3
  | [] => mkNum neg ip frac fracLen hasFrac false 0 s3

/-- JSON number grammar: `-? (0 | [1-9][0-9]*) (\. [0-9]+)? ([eE][+-]?[0-9]+)?`. -/
def parseNum (s : Str) : Except Str (Json × Str) :=
  let (neg, s1) := match s with
    | '-' :: rest => (true, rest)
    | _ => (false, s)
  match s1 with
  | c :: _ =>
    if ¬ c.isDigit then .error (sd "Expecting value")
    else if (match s1 with | '0' :: d :: _ => d.isDigit | _ => false : Bool) then
      .error (sd "Expecting value")
    else
      let (ip, _, s2) := parseDigits s1 0 0
      match s2 with
      | '.' :: rest2 =>
        match rest2 with
        | d :: _ =>
          if d.isDigit then
            let (fv, fn, s3) := parseDigits rest2 0 0
            parseExpPart neg ip fv fn true s3
          else .error (sd "Expecting fractional digits")
        | [] => .error (sd "Expecting fractional digits")
      | _ => parseExpPart neg ip 0 0 false s2
  | [] => .error (sd "Expecting value")

mutual

/-- One JSON value, skipping leading whitespace. -/
def parseVal : Nat → Str → Except Str (Json × Str)
  | 0, _ => .error (sd "fuel exhausted")
  | fuel + 1, s =>
    match skipWS s with
    | '{' :: rest => parseObjBody fuel rest true []
    | '[' :: rest => parseArrBody fuel rest true []
    | '"' :: rest =>
      match parseStrBody rest with
      | .ok (cs, r) => .ok (Json.str cs, r)
      | .error m => .error m
    | 't' :: 'r' :: 'u' :: 'e' :: rest => .ok (Json.bool true, rest)
    | 'f' :: 'a' :: 'l' :: 's' :: 'e' :: rest => .ok (Json.bool false, rest)
    | 'n' :: 'u' :: 'l' :: 'l' :: rest => .ok (Json.null, rest)
    | other => parseNum other

/-- Object members after `{`; `first` marks that no member was read yet. -/
def parseObjBody : Nat → Str → Bool → List (Str × Json) → Except Str (Json × Str)
  | 0, _, _, _ => .error (sd "fuel exhausted")
  | fuel + 1, s, first, acc =>
    match skipWS s with
    | '}' :: rest =>
      if first then .ok (Json.obj acc.reverse, rest)
      else .error (sd "Expecting property name")
    | '"' :: rest =>
      match parseStrBody rest with
      | .error m => .error m
      | .ok (k, r1) =>
        match skipWS r1 with
        | ':' :: r2 =>
          match parseVal fuel r2 with
          | .error m => .error m
          | .ok (v, r3) =>
            let acc' := (dictSet k v acc.reverse).reverse
            match skipWS r3 with
            | ',' :: r4 => parseObjBody fuel r4 false acc'
            | '}' :: r4 => .ok (Json.obj acc'.reverse, r4)
            | _ => .error (sd "Expecting comma delimiter")
        | _ => .error (sd "Expecting colon delimiter")
    | _ => .error (sd "Expecting property name enclosed in double quotes")

/-- Array items after `[`; `first` marks that no item was read yet. -/
def parseArrBody : Nat → Str → Bool → List Json → Except Str (Json × Str)
  | 0, _, _, _ => .error (sd "fuel exhausted")
  | fuel + 1, s, first, acc =>
    match skipWS s with
    | ']' :: rest =>
      if first then .ok (Json.arr acc.reverse, rest)
      else .error (sd "Expecting value after comma")
    | other =>
      match parseVal fuel other with
      | .error m => .error m
      | .ok (v, r1) =>
        match skipWS r1 with
        | ',' :: r2 => parseArrBody fuel r2 false (v :: acc)
        | ']' :: r2 => .ok (Json.arr (v :: acc).reverse, r2)
        | _ => .error (sd "Expecting comma delimiter")

end

/-- `json.loads`: parse one value and require only whitespace after it. -/
def pyJsonLoads (s : Str) : Except Str Json :=
  match parseVal (4 * s.length + 16) s with
  | .error m => .error m
  | .ok (v, rest) =>
    if skipWS rest = [] then .ok v else .error (sd "Extra data")

/-!
## Response text transforms (src/services.py lines 90-97, 124-136, 172-180)
-/

/-- The match end of the regex `(\{[\s\S]*\})$` under `re.search`: the
final `}` must sit at the end of the text, or just before a single
trailing newline (Python `$`).  Returns the index of that `}`. -/
def closeBraceEnd (t : Str) : Option Nat :=
  if trailsWith (sd "\x7d") t then some (t.length - 1)
  else if trailsWith (sd "\x7d\n") t then some (t.length - 2)
  else none

/-- `extract_json_from_text` (lines 90-97): `re.search` of
`(\{[\s\S]*\})$`.  The leftmost match starts at the first `{` occurring
before the final `}` required by `$`; greediness makes the match run to
that final `}`.  With no match the text is returned unchanged. -/
def extract_json_from_text (t : Str) : Str :=
  match closeBraceEnd t with
  | none => t
  | some j =>
    match firstIdx '{' (t.take j) with
    | some i => (t.take (j + 1)).drop i
    | none => t

/-- `re.sub(r'```json|```', '', text)`: left-to-right scan, preferring
the longer alternative at each position. -/
def stripCodeMarks : Str → Str
  | '`' :: '`' :: '`' :: 'j' :: 's' :: 'o' :: 'n' :: rest => stripCodeMarks rest
  | '`' :: '`' :: '`' :: rest => stripCodeMarks rest
  | c :: rest => c :: stripCodeMarks rest
  | [] => []

/-- `text.replace('\\"', '"')`: collapse backslash-quote to quote. -/
def unescapeQuotes : Str → Str
  | '\\' :: '"' :: rest => '"' :: unescapeQuotes rest
  | c :: rest => c :: unescapeQuotes rest
  | [] => []

/-- `text.replace('\\n', ' ')`: literal backslash-n to a space. -/
def unescapeNewlines : Str → Str
  | '\\' :: 'n' :: rest => ' ' :: unescapeNewlines rest
  | c :: rest => c :: unescapeNewlines rest
  | [] => []

/-- `attempt_json_repair` (lines 124-136). -/
def attempt_json_repair (text : Str) : Str :=
  let t1 := pyStrip (stripCodeMarks text)
  let t2 := extract_json_from_text t1
  unescapeNewlines (unescapeQuotes t2)

/-- The pre-parse cleanup of `analyze_lessons` (lines 174-180): strip,
then peel a ```` ```json ```` or ```` ``` ```` wrapper when the stripped
text both starts and ends with one. -/
def stripFencesStep (r0 : Str) : Str :=
  let r := pyStrip r0
  if leadsWith (sd "```json") r ∧ trailsWith (sd "```") r then
    pyStrip (pySlice 7 3 r)
  else if leadsWith (sd "```") r ∧ trailsWith (sd "```") r then
    pyStrip (pySlice 3 3 r)
  else r

/-!
## Python value operations used by validation and coercion
-/

/-- Python exceptions raised inside the pipeline's `try` body.
`valueError` is caught by `except ValueError` (line 209); every other
kind falls to the catch-all `except Exception` (line 212). -/
inductive PyExc where
  | valueError (msg : Str)
  | typeError (msg : Str)
  | keyError (msg : Str)
  deriving DecidableEq, Repr

/-- `field in x` (Python `in`): key membership for dicts, substring test
for strings, element equality for lists; `TypeError` otherwise. -/
def pyContains (x : Json) (field : Str) : Except PyExc Bool :=
  match x with
  | .obj kvs => .ok ((lookupKey field kvs).isSome)
  | .str s => .ok (decide (field <:+: s))
  | .arr xs => .ok (decide (Json.str field ∈ xs))
  | _ => .error (.typeError (sd "argument is not iterable"))

/-- `x[field]` for a string key: dict lookup (`KeyError` when absent);
`TypeError` on strings, lists and scalars. -/
def pyGetItem (x : Json) (field : Str) : Except PyExc Json :=
  match x with
  | .obj kvs =>
    match lookupKey field kvs with
    | some v => .ok v
    | none => .error (.keyError field)
  | .str _ => .error (.typeError (sd "string indices must be integers"))
  | .arr _ => .error (.typeError (sd "list indices must be integers"))
  | _ => .error (.typeError (sd "object is not subscriptable"))

/-- `x[field] = v` for a string key: dict update; `TypeError` otherwise. -/
def pySetItem (x : Json) (field : Str) (v : Json) : Except PyExc Json :=
  match x with
  | .obj kvs => .ok (.obj (dictSet field v kvs))
  | _ => .error (.typeError (sd "object does not support item assignment"))

/-- `for y in x`: list elements; characters (as 1-character strings) of a
string; keys of a dict; `TypeError` on scalars. -/
def pyIter (x : Json) : Except PyExc (List Json) :=
  match x with
  | .arr xs => .ok xs
  | .str s => .ok (s.map fun c => Json.str [c])
  | .obj kvs => .ok (kvs.map fun kv => Json.str kv.1)
  | _ => .error (.typeError (sd "object is not iterable"))

/-- Python `repr` of a string, as it appears in `int()` error messages.
(Escaping inside the reproduced text is not modelled; no claim turns on
it.) -/
def pyRepr (s : Str) : Str := '\'' :: s ++ ['\'']

/-- Digit run of `int(str)`: digits with single underscores strictly
between digits (CPython's literal grammar). -/
def intDigits : Str → Nat → Option Nat
  | [], acc => some acc
  | '_' :: d :: rest, acc =>
    if d.isDigit then intDigits rest (acc * 10 + (d.toNat - '0'.toNat)) else none
  | c :: rest, acc =>
    if c.isDigit then intDigits rest (acc * 10 + (c.toNat - '0'.toNat)) else none

/-- `int(s)` for a string `s`: optional whitespace and sign, then a
non-empty digit run; anything else raises `ValueError`. -/
def pyIntOfStr (s : Str) : Option Int :=
  let t := pyStrip s
  let (neg, t1) := match t with
    | '-' :: rest => (true, rest)
    | '+' :: rest => (false, rest)
    | _ => (false, t)
  match t1 with
  | c :: _ =>
    if c.isDigit then (intDigits t1 0).map (fun n => if neg then -(n : Int) else n)
    else none
  | [] => none

/-- Truncation toward zero of the float `m * 10 ^ e` (Python `int(float)`). -/
def truncFloat (m e : Int) : Int :=
  if 0 ≤ e then m * 10 ^ e.toNat else Int.tdiv m (10 ^ (-e).toNat)

/-- `int(x)` on a parsed JSON value: ints pass through, floats truncate
toward zero, bools become 0/1, strings go through the string-literal
parse (`ValueError` on failure), everything else raises `TypeError`. -/
def pyIntJson : Json → Except PyExc Int
  | .int n => .ok n
  | .float m e => .ok (truncFloat m e)
  | .bool b => .ok (if b then 1 else 0)
  | .str s =>
    match pyIntOfStr s with
    | some n => .ok n
    | none =>
      .error (.valueError (sd "invalid literal for int() with base 10: " ++ pyRepr s))
  | .null => .error (.typeError (sd "int() argument must not be NoneType"))
  | .arr _ => .error (.typeError (sd "int() argument must not be list"))
  | .obj _ => .error (.typeError (sd "int() argument must not be dict"))

/-!
## Structure Validator (src/services.py lines 138-159)
-/

/-- `isinstance(v, list)`. -/
def fieldIsList : Json → Bool
  | .arr _ => true
  | _ => false

/-- `isinstance(v, str)`. -/
def fieldIsStr : Json → Bool
  | .str _ => true
  | _ => false

/-- Sequence a fallible check over a list, stopping at the first raised
exception (the `for` loops of the validator). -/
def forME (f : Json → Except PyExc Unit) : List Json → Except PyExc Unit
  | [] => .ok ()
  | x :: xs =>
    match f x with
    | .ok _ => forME f xs
    | .error e => .error e

/-- Map a fallible transform over a list, stopping at the first raised
exception (the mutating `for` loops of the coercion block). -/
def mapME (f : Json → Except PyExc Json) : List Json → Except PyExc (List Json)
  | [] => .ok []
  | x :: xs =>
    match f x with
    | .error e => .error e
    | .ok y =>
      match mapME f xs with
      | .error e => .error e
      | .ok ys => .ok (y :: ys)

/-- One iteration of the `required_structure` loop:
`if field not in parsed_result or not isinstance(parsed_result[field],
field_type): raise ValueError(...)` (short-circuit `or`). -/
def checkTopField (p : Json) (f : Str) (isTy : Json → Bool) : Except PyExc Unit :=
  match pyContains p f with
  | .error e => .error e
  | .ok b =>
    if b then
      match pyGetItem p f with
      | .error e => .error e
      | .ok v =>
        if isTy v then .ok ()
        else .error (.valueError (sd "Missing or invalid field: " ++ f))
    else .error (.valueError (sd "Missing or invalid field: " ++ f))

/-- `all(key in example for key in ["text", "confidence"])`, raising
`ValueError` when false (generator short-circuit preserved). -/
def checkExample (ex : Json) : Except PyExc Unit :=
  match pyContains ex (sd "text") with
  | .error e => .error e
  | .ok b1 =>
    if b1 then
      match pyContains ex (sd "confidence") with
      | .error e => .error e
      | .ok b2 =>
        if b2 then .ok ()
        else .error (.valueError (sd "Invalid example structure in common_ideas"))
    else .error (.valueError (sd "Invalid example structure in common_ideas"))

/-- Per-idea check: the three required keys, then every element of
`idea["examples"]`. -/
def checkIdea (idea : Json) : Except PyExc Unit :=
  match pyContains idea (sd "title") with
  | .error e => .error e
  | .ok b1 =>
    if ¬ b1 then .error (.valueError (sd "Invalid common_ideas structure"))
    else
      match pyContains idea (sd "overall_confidence") with
      | .error e => .error e
      | .ok b2 =>
        if ¬ b2 then .error (.valueError (sd "Invalid common_ideas structure"))
        else
          match pyContains idea (sd "examples") with
          | .error e => .error e
          | .ok b3 =>
            if ¬ b3 then .error (.valueError (sd "Invalid common_ideas structure"))
            else
              match pyGetItem idea (sd "examples") with
              | .error e => .error e
              | .ok exs =>
                match pyIter exs with
                | .error e => .error e
                | .ok elems => forME checkExample elems

/-- `validate_response_structure` (lines 138-159). -/
def validate_response_structure (p : Json) : Except PyExc Unit :=
  match checkTopField p (sd "unrecoverable_lines") fieldIsList with
  | .error e => .error e
  | .ok _ =>
  match checkTopField p (sd "common_ideas") fieldIsList with
  | .error e => .error e
  | .ok _ =>
  match checkTopField p (sd "uncategorized_lines") fieldIsList with
  | .error e => .error e
  | .ok _ =>
  match checkTopField p (sd "summary") fieldIsStr with
  | .error e => .error e
  | .ok _ =>
  match checkTopField p (sd "observations") fieldIsList with
  | .error e => .error e
  | .ok _ =>
  match checkTopField p (sd "recommendations") fieldIsList with
  | .error e => .error e
  | .ok _ =>
  match pyGetItem p (sd "common_ideas") with
  | .error e => .error e
  | .ok ci =>
  match pyIter ci with
  | .error e => .error e
  | .ok ideas => forME checkIdea ideas

/-!
## Confidence coercion (src/services.py lines 201-205)

`for x in coll: x[...] = int(x[...])` mutates the iterated elements in
place.  The mutation is visible in the result only when the collection
is a list of dicts; iterating a string or a dict yields fresh strings,
on which the first item assignment raises `TypeError`, so only the empty
string and the empty dict survive iteration unchanged.
-/

/-- Apply the per-element mutation `f` to each iterated element of a
collection, with Python's visibility rules described above. -/
def coerceElems (exs : Json) (f : Json → Except PyExc Json) : Except PyExc Json :=
  match exs with
  | .arr l =>
    match mapME f l with
    | .error e => .error e
    | .ok l' => .ok (.arr l')
  | .str [] => .ok (.str [])
  | .obj [] => .ok (.obj [])
  | .str (c :: cs) =>
    match f (.str [c]) with
    | .error e => .error e
    | .ok _ => .ok (.str (c :: cs))
  | .obj ((k, v) :: kvs) =>
    match f (.str k) with
    | .error e => .error e
    | .ok _ => .ok (.obj ((k, v) :: kvs))
  | _ => .error (.typeError (sd "object is not iterable"))

/-- `example["confidence"] = int(example["confidence"])`. -/
def coerceExample (ex : Json) : Except PyExc Json :=
  match pyGetItem ex (sd "confidence") with
  | .error e => .error e
  | .ok v =>
    match pyIntJson v with
    | .error e => .error e
    | .ok n => pySetItem ex (sd "confidence") (.int n)

/-- `idea["overall_confidence"] = int(idea["overall_confidence"])`, then
the loop over `idea["examples"]`. -/
def coerceIdea (idea : Json) : Except PyExc Json :=
  match pyGetItem idea (sd "overall_confidence") with
  | .error e => .error e
  | .ok oc =>
    match pyIntJson oc with
    | .error e => .error e
    | .ok n =>
      match pySetItem idea (sd "overall_confidence") (.int n) with
      | .error e => .error e
      | .ok idea1 =>
        match pyGetItem idea1 (sd "examples") with
        | .error e => .error e
        | .ok exs =>
          match coerceElems exs coerceExample with
          | .error e => .error e
          | .ok exs' => pySetItem idea1 (sd "examples") exs'

/-- The whole coercion block over `parsed_result["common_ideas"]`. -/
def coerceConfidences (p : Json) : Except PyExc Json :=
  match pyGetItem p (sd "common_ideas") with
  | .error e => .error e
  | .ok ci =>
    match coerceElems ci coerceIdea with
    | .error e => .error e
    | .ok ci' => pySetItem p (sd "common_ideas") ci'

/-!
## Report Assembler / pipeline boundary (src/services.py lines 161-214)
-/

/-- `{"error": msg}`. -/
def errObj (msg : Str) : Json := .obj [(sd "error", .str msg)]

/-- `{"error": msg, "debug_info": dbg}`. -/
def errObjDebug (msg dbg : Str) : Json :=
  .obj [(sd "error", .str msg), (sd "debug_info", .str dbg)]

/-- The `except` ladder of `analyze_lessons`: `ValueError` is caught at
line 209, every other exception by the catch-all at line 212
(`str(KeyError(k))` is `repr(k)`). -/
def handlePyExc : PyExc → Json
  | .valueError m => errObj (sd "Analysis failed: " ++ m)
  | .typeError m => errObj (sd "An unexpected error occurred: " ++ m)
  | .keyError k => errObj (sd "An unexpected error occurred: " ++ pyRepr k)

/-- Validation then coercion of a successfully parsed value (lines
198-207), with the exception ladder applied. -/
def afterParse (parsed : Json) : Json :=
  match validate_response_structure parsed with
  | .error e => handlePyExc e
  | .ok _ =>
    match coerceConfidences parsed with
    | .ok report => report
    | .error e => handlePyExc e

/-- `'\n'.join(lines)`. -/
def joinNL : List Str → Str
  | [] => []
  | [l] => l
  | l :: ls => l ++ '\n' :: joinNL ls

/-- The fixed instruction text of `create_llm_prompt` before the input
lines (lines 41-85 of the f-string, braces written `\x7b`/`\x7d`). -/
def promptPrefix : String :=
  "Analyze these post-mortem lessons and return ONLY a strict JSON object with exactly this structure:\n\n"
  ++ "\x7b\n    \"unrecoverable_lines\": [\n        \"line 1 with no meaning\",\n        \"line 2 with no meaning\"\n    ],\n"
  ++ "    \"common_ideas\": [\n        \x7b\n            \"title\": \"specific theme title\",\n            \"overall_confidence\": 80,\n"
  ++ "            \"examples\": [\n                \x7b\n                    \"text\": \"specific example text\",\n                    \"confidence\": 75\n                \x7d\n            ]\n        \x7d\n    ],\n"
  ++ "    \"uncategorized_lines\": [\n        \"meaningful uncategorized line 1\",\n        \"meaningful uncategorized line 2\"\n    ],\n"
  ++ "    \"summary\": \"concise summary text\",\n    \"observations\": [\n        \"key observation 1\",\n        \"key observation 2\"\n    ],\n"
  ++ "    \"recommendations\": [\n        \"recommendation 1\",\n        \"recommendation 2\"\n    ]\n\x7d\n\n"
  ++ "Replace all example text with your actual analysis.\nImportant instructions:\n- \"confidence\" values must be integers between 0-100\n"
  ++ "- All JSON arrays and objects must be properly formatted\n- Make sure all quotes are properly escaped within strings\n"
  ++ "- DO NOT include any text, comments, or code blocks outside of the JSON structure\n- Do NOT use markdown code blocks - return just the raw JSON object\n"
  ++ "- Include all required fields exactly as shown\n\nHere are the post-mortem lessons to analyze:\n\n"

/-- The fixed instruction text after the input lines (line 88). -/
def promptSuffix : String :=
  "\n\nRemember: Return ONLY the valid JSON object with no additional text before or after."

/-- `create_llm_prompt` (lines 39-88). -/
def create_llm_prompt (lines : List Str) : Str :=
  sd promptPrefix ++ joinNL lines ++ sd promptSuffix

/-- `analyze_lessons` (lines 161-214), with the network modelled by
`net : prompt → attempt number → outcome`.  The returned value is the
dict the function returns: a report or an error payload. -/
def analyze_lessons (net : Str → Nat → Except Exc Str) (lines : List Str) : Json :=
  if lines = [] then errObj (sd "No input data provided")
  else
    match (analyze_with_llm (net (create_llm_prompt lines))).outcome with
    | .error e => errObj (sd "An unexpected error occurred: " ++ e.msg)
    | .ok raw =>
      let result := stripFencesStep raw
      match pyJsonLoads result with
      | .ok parsed => afterParse parsed
      | .error _ =>
        match pyJsonLoads (attempt_json_repair result) with
        | .ok parsed => afterParse parsed
        | .error m2 =>
          errObjDebug (sd "The analysis response was malformed. Please try again.")
            (sd "Failed to parse JSON: " ++ m2 ++
             sd ". First 500 chars of response: " ++ result.take 500)

/-!
## Shape observers used by the claims
-/

/-- Dict field access as an observer (none for non-dicts/missing keys). -/
def getKey (j : Json) (k : Str) : Option Json :=
  match j with
  | .obj kvs => lookupKey k kvs
  | _ => none

/-- Presence of the `error` key, the discriminator `main.py` line 46 uses. -/
def hasErrorKey (j : Json) : Bool := (getKey j (sd "error")).isSome

/-- The `error` value is a non-empty string. -/
def errMsgNonempty (j : Json) : Bool :=
  match getKey j (sd "error") with
  | some (.str (_ :: _)) => true
  | _ => false

/-- All six top-level report fields present with their required kinds. -/
def sixFieldsOK (j : Json) : Bool :=
  (match getKey j (sd "unrecoverable_lines") with | some v => fieldIsList v | none => false) &&
  (match getKey j (sd "common_ideas") with | some v => fieldIsList v | none => false) &&
  (match getKey j (sd "uncategorized_lines") with | some v => fieldIsList v | none => false) &&
  (match getKey j (sd "summary") with | some v => fieldIsStr v | none => false) &&
  (match getKey j (sd "observations") with | some v => fieldIsList v | none => false) &&
  (match getKey j (sd "recommendations") with | some v => fieldIsList v | none => false)

/-- The given (optional) value is an integer. -/
def confIsInt : Option Json → Bool
  | some (.int _) => true
  | _ => false

/-- The given (optional) value is an integer within `[0, 100]`. -/
def confInRange : Option Json → Bool
  | some (.int n) => decide (0 ≤ n ∧ n ≤ 100)
  | _ => false

/-- Every `confidence` of an `examples` collection satisfies `pred`.
Besides lists, the empty string and empty dict are the only shapes that
survive the coercion loop; they hold no confidence values. -/
def examplesOK (pred : Option Json → Bool) : Json → Bool
  | .arr exs => exs.all fun ex => pred (getKey ex (sd "confidence"))
  | .str s => s.isEmpty
  | .obj kvs => kvs.isEmpty
  | _ => false

/-- The idea's `overall_confidence` and all its nested `confidence`
values satisfy `pred`. -/
def ideaConfOK (pred : Option Json → Bool) (idea : Json) : Bool :=
  pred (getKey idea (sd "overall_confidence")) &&
  (match getKey idea (sd "examples") with
   | some exs => examplesOK pred exs
   | none => false)

/-- Every `overall_confidence` and every nested `confidence` of the
report satisfies the given predicate on its (optional) value. -/
def allConf (pred : Option Json → Bool) (j : Json) : Bool :=
  match getKey j (sd "common_ideas") with
  | some (.arr ideas) => ideas.all (ideaConfOK pred)
  | _ => false

/-!
## Concrete fixtures for the claims
-/

/-- Oracle that answers every attempt with the same response text. -/
def constNet (r : Str) : Str → Nat → Except Exc Str := fun _ _ => .ok r

/-- A one-line input file. -/
def inputLines : List Str := [sd "lesson one"]

/-- Well-formed response whose `overall_confidence` is the string
`"82"` and whose nested `confidence` is the float `82.0`. -/
def respGood : Str :=
  sd "\x7b\"unrecoverable_lines\": [], \"common_ideas\": [\x7b\"title\": \"t\", \"overall_confidence\": \"82\", \"examples\": [\x7b\"text\": \"e\", \"confidence\": 82.0\x7d]\x7d], \"uncategorized_lines\": [], \"summary\": \"s\", \"observations\": [], \"recommendations\": []\x7d"

/-- The report `analyze_lessons` returns for `respGood`. -/
def reportGood : Json :=
  .obj [(sd "unrecoverable_lines", .arr []),
        (sd "common_ideas", .arr
          [.obj [(sd "title", .str (sd "t")),
                 (sd "overall_confidence", .int 82),
                 (sd "examples", .arr
                   [.obj [(sd "text", .str (sd "e")),
                          (sd "confidence", .int 82)]])]]),
        (sd "uncategorized_lines", .arr []),
        (sd "summary", .str (sd "s")),
        (sd "observations", .arr []),
        (sd "recommendations", .arr [])]

/-- Well-formed response with an out-of-range confidence `150`. -/
def resp150 : Str :=
  sd "\x7b\"unrecoverable_lines\": [], \"common_ideas\": [\x7b\"title\": \"t\", \"overall_confidence\": 150, \"examples\": []\x7d], \"uncategorized_lines\": [], \"summary\": \"s\", \"observations\": [], \"recommendations\": []\x7d"

/-- Response whose only deviation is the confidence string `"high"`. -/
def respHigh : Str :=
  sd "\x7b\"unrecoverable_lines\": [], \"common_ideas\": [\x7b\"title\": \"t\", \"overall_confidence\": \"high\", \"examples\": []\x7d], \"uncategorized_lines\": [], \"summary\": \"s\", \"observations\": [], \"recommendations\": []\x7d"

/-- Response whose only deviation is the confidence string `"82.5"`. -/
def respStr825 : Str :=
  sd "\x7b\"unrecoverable_lines\": [], \"common_ideas\": [\x7b\"title\": \"t\", \"overall_confidence\": \"82.5\", \"examples\": []\x7d], \"uncategorized_lines\": [], \"summary\": \"s\", \"observations\": [], \"recommendations\": []\x7d"

/-- Response whose only deviation is the confidence float `82.5`. -/
def respFloat825 : Str :=
  sd "\x7b\"unrecoverable_lines\": [], \"common_ideas\": [\x7b\"title\": \"t\", \"overall_confidence\": 82.5, \"examples\": []\x7d], \"uncategorized_lines\": [], \"summary\": \"s\", \"observations\": [], \"recommendations\": []\x7d"

/-- Valid response except that the `summary` field is absent. -/
def respNoSummary : Str :=
  sd "\x7b\"unrecoverable_lines\": [], \"common_ideas\": [], \"uncategorized_lines\": [], \"observations\": [], \"recommendations\": []\x7d"

/-- Well-formed response that additionally carries an `error` key. -/
def respWithError : Str :=
  sd "\x7b\"unrecoverable_lines\": [], \"common_ideas\": [], \"uncategorized_lines\": [], \"summary\": \"s\", \"observations\": [], \"recommendations\": [], \"error\": \"x\"\x7d"

/-- The Parser/Repairer stage of `analyze_lessons` (lines 183-189) with
its parse-attempt count made observable: strict parse, then on failure
exactly one repair-and-reparse. -/
def parseWithRepair (s : Str) : Except Str Json × Nat :=
  match pyJsonLoads s with
  | .ok v => (.ok v, 1)
  | .error _ =>
    match pyJsonLoads (attempt_json_repair s) with
    | .ok v => (.ok v, 2)
    | .error m2 => (.error m2, 2)

/-- Whether a parse attempt succeeded. -/
def parseIsOk : Except Str Json → Bool
  | .ok _ => true
  | .error _ => false

/-- A response with over-escaped quotes that the repair pass cannot make
parseable: `\"title\" :` repairs to `"title" :`, still invalid JSON. -/
def badEsc : Str := sd "\\\"title\\\" :"

/-- The representative over-escaped object `{\"title\": \"x\"}` (braces
literal): strict parsing fails, the repaired text parses. -/
def goodEsc : Str := sd "\x7b\\\"title\\\": \\\"x\\\"\x7d"

/-- The value `json.loads` produces for `respGood`. -/
def parsedGood : Json :=
  .obj [(sd "unrecoverable_lines", .arr []),
        (sd "common_ideas", .arr
          [.obj [(sd "title", .str (sd "t")),
                 (sd "overall_confidence", .str (sd "82")),
                 (sd "examples", .arr
                   [.obj [(sd "text", .str (sd "e")),
                          (sd "confidence", .float 820 (-1))]])]]),
        (sd "uncategorized_lines", .arr []),
        (sd "summary", .str (sd "s")),
        (sd "observations", .arr []),
        (sd "recommendations", .arr [])]

/-- The report returned for `respFloat825` (82.5 truncates to 82). -/
def report825 : Json :=
  .obj [(sd "unrecoverable_lines", .arr []),
        (sd "common_ideas", .arr
          [.obj [(sd "title", .str (sd "t")),
                 (sd "overall_confidence", .int 82),
                 (sd "examples", .arr [])]]),
        (sd "uncategorized_lines", .arr []),
        (sd "summary", .str (sd "s")),
        (sd "observations", .arr []),
        (sd "recommendations", .arr [])]

/-- The value returned for `respWithError`: a validated report that
nevertheless carries the `error` key the model emitted. -/
def reportWithError : Json :=
  .obj [(sd "unrecoverable_lines", .arr []),
        (sd "common_ideas", .arr []),
        (sd "uncategorized_lines", .arr []),
        (sd "summary", .str (sd "s")),
        (sd "observations", .arr []),
        (sd "recommendations", .arr []),
        (sd "error", .str (sd "x"))]

/-- Oracle failing the first two attempts with rate limiting. -/
def flakyNet : Nat → Except Exc Str :=
  fun a => if a < 3 then .error .rateLimitError else .ok (sd "ok")

/-- Oracle failing every attempt with an authentication error. -/
def authNet : Nat → Except Exc Str := fun _ => .error .authenticationError

/-!
## Structural lemmas about validation and coercion
-/

theorem lookupKey_dictSet_self (k : Str) (v : Json) :
    ∀ kvs, lookupKey k (dictSet k v kvs) = some v
  | [] => by simp [dictSet, lookupKey]
  | (l, w) :: rest => by
      by_cases h : l = k <;>
        simp [dictSet, lookupKey, h, lookupKey_dictSet_self k v rest]

theorem lookupKey_dictSet_ne {k' k : Str} (h : k' ≠ k) (v : Json) :
    ∀ kvs, lookupKey k' (dictSet k v kvs) = lookupKey k' kvs
  | [] => by simp [dictSet, lookupKey, Ne.symm h]
  | (l, w) :: rest => by
      by_cases hl : l = k
      · subst hl
        simp [dictSet, lookupKey, Ne.symm h]
      · simp [dictSet, lookupKey, hl, lookupKey_dictSet_ne h v rest]

/-- A top-level field check succeeds only on a dict that holds the field
with the required kind. -/
theorem checkTopField_ok {p : Json} {f : Str} {ty : Json → Bool}
    (h : checkTopField p f ty = .ok ()) :
    ∃ v, getKey p f = some v ∧ ty v = true := by
  cases p <;> simp [checkTopField, pyContains, pyGetItem, getKey] at h ⊢
  · split at h <;> simp_all
  · split at h <;> simp_all
  · rename_i kvs
    cases hl : lookupKey f kvs with
    | none => simp [hl] at h
    | some v =>
      simp [hl] at h
      exact ⟨v, rfl, h⟩

/-- `getKey` only answers on dicts. -/
theorem getKey_some_obj {p : Json} {f : Str} {v : Json}
    (h : getKey p f = some v) : ∃ kvs, p = .obj kvs := by
  cases p <;> first
    | exact ⟨_, rfl⟩
    | simp [getKey] at h

/-- Successful validation pins the six required fields and their kinds. -/
theorem validate_ok_spec {p : Json}
    (h : validate_response_structure p = .ok ()) :
    ∃ v1 v2 v3 v4 v5 v6,
      getKey p (sd "unrecoverable_lines") = some v1 ∧ fieldIsList v1 = true ∧
      getKey p (sd "common_ideas") = some v2 ∧ fieldIsList v2 = true ∧
      getKey p (sd "uncategorized_lines") = some v3 ∧ fieldIsList v3 = true ∧
      getKey p (sd "summary") = some v4 ∧ fieldIsStr v4 = true ∧
      getKey p (sd "observations") = some v5 ∧ fieldIsList v5 = true ∧
      getKey p (sd "recommendations") = some v6 ∧ fieldIsList v6 = true := by
  unfold validate_response_structure at h
  split at h
  · simp at h
  rename_i u1 h1
  split at h
  · simp at h
  rename_i u2 h2
  split at h
  · simp at h
  rename_i u3 h3
  split at h
  · simp at h
  rename_i u4 h4
  split at h
  · simp at h
  rename_i u5 h5
  split at h
  · simp at h
  rename_i u6 h6
  obtain ⟨v1, hg1, ht1⟩ := checkTopField_ok h1
  obtain ⟨v2, hg2, ht2⟩ := checkTopField_ok h2
  obtain ⟨v3, hg3, ht3⟩ := checkTopField_ok h3
  obtain ⟨v4, hg4, ht4⟩ := checkTopField_ok h4
  obtain ⟨v5, hg5, ht5⟩ := checkTopField_ok h5
  obtain ⟨v6, hg6, ht6⟩ := checkTopField_ok h6
  exact ⟨v1, v2, v3, v4, v5, v6, hg1, ht1, hg2, ht2, hg3, ht3,
    hg4, ht4, hg5, ht5, hg6, ht6⟩

theorem pyGetItem_ok {x : Json} {k : Str} {v : Json}
    (h : pyGetItem x k = .ok v) :
    ∃ kvs, x = .obj kvs ∧ lookupKey k kvs = some v := by
  cases x <;> simp [pyGetItem] at h
  case obj kvs =>
    cases hl : lookupKey k kvs <;> simp [hl] at h
    exact ⟨kvs, rfl, by rw [hl, h]⟩

theorem pySetItem_ok {x : Json} {k : Str} {v y : Json}
    (h : pySetItem x k v = .ok y) :
    ∃ kvs, x = .obj kvs ∧ y = .obj (dictSet k v kvs) := by
  cases x <;> simp [pySetItem] at h
  case obj kvs => exact ⟨kvs, rfl, h.symm⟩

/-- A coerced example carries an integer `confidence`. -/
theorem coerceExample_ok {ex ex' : Json}
    (h : coerceExample ex = .ok ex') :
    confIsInt (getKey ex' (sd "confidence")) = true := by
  unfold coerceExample at h
  split at h
  · simp at h
  rename_i v hv
  split at h
  · simp at h
  rename_i n hn
  obtain ⟨kvs, _, rfl⟩ := pySetItem_ok h
  simp [getKey, lookupKey_dictSet_self, confIsInt]

theorem mapME_ok_mem {f : Json → Except PyExc Json} :
    ∀ {l l' : List Json}, mapME f l = .ok l' →
      ∀ y ∈ l', ∃ x, x ∈ l ∧ f x = .ok y
  | [], l', h => by
      simp [mapME] at h
      subst h
      simp
  | x :: xs, l', h => by
      simp only [mapME] at h
      cases hfx : f x with
      | error e => simp [hfx] at h
      | ok y0 =>
        cases hm : mapME f xs with
        | error e => simp [hfx, hm] at h
        | ok ys =>
          simp [hfx, hm] at h
          subst h
          intro y hy
          rcases List.mem_cons.mp hy with rfl | hy'
          · exact ⟨x, List.mem_cons_self x xs, hfx⟩
          · obtain ⟨x', hx', hfx'⟩ := mapME_ok_mem hm y hy'
            exact ⟨x', List.mem_cons_of_mem x hx', hfx'⟩

/-- A coerced `examples` collection holds only integer confidences. -/
theorem coerceElems_ok_examples {exs exs' : Json}
    (h : coerceElems exs coerceExample = .ok exs') :
    examplesOK confIsInt exs' = true := by
  cases exs with
  | arr l =>
    simp only [coerceElems] at h
    cases hm : mapME coerceExample l with
    | error e => simp [hm] at h
    | ok l' =>
      simp [hm] at h
      subst h
      simp only [examplesOK, List.all_eq_true]
      intro ex' hex'
      obtain ⟨x, _, hfx⟩ := mapME_ok_mem hm ex' hex'
      exact coerceExample_ok hfx
  | str s =>
    cases s with
    | nil =>
      simp [coerceElems] at h
      subst h
      simp [examplesOK]
    | cons c cs => simp [coerceElems, coerceExample, pyGetItem] at h
  | obj kvs =>
    cases kvs with
    | nil =>
      simp [coerceElems] at h
      subst h
      simp [examplesOK]
    | cons kv rest => simp [coerceElems, coerceExample, pyGetItem] at h
  | null => simp [coerceElems] at h
  | bool b => simp [coerceElems] at h
  | int n => simp [coerceElems] at h
  | float m e => simp [coerceElems] at h

/-- A coerced idea carries an integer `overall_confidence` and a
well-shaped coerced `examples` slot. -/
theorem coerceIdea_ok {idea idea' : Json}
    (h : coerceIdea idea = .ok idea') :
    ideaConfOK confIsInt idea' = true := by
  unfold coerceIdea at h
  split at h
  · simp at h
  rename_i oc hoc
  split at h
  · simp at h
  rename_i n hn
  split at h
  · simp at h
  rename_i idea1 hset1
  split at h
  · simp at h
  rename_i exs hexs
  split at h
  · simp at h
  rename_i exs' hcoe
  obtain ⟨ikvs, rfl, rfl⟩ := pySetItem_ok hset1
  obtain ⟨ikvs2, heq2, rfl⟩ := pySetItem_ok h
  have heq3 : ikvs2 = dictSet (sd "overall_confidence") (.int n) ikvs := by
    injection heq2 with h'
    exact h'.symm
  subst heq3
  have hoc' : lookupKey (sd "overall_confidence")
      (dictSet (sd "examples") exs'
        (dictSet (sd "overall_confidence") (Json.int n) ikvs)) = some (.int n) := by
    rw [lookupKey_dictSet_ne (by decide), lookupKey_dictSet_self]
  have hex' : lookupKey (sd "examples")
      (dictSet (sd "examples") exs'
        (dictSet (sd "overall_confidence") (Json.int n) ikvs)) = some exs' := by
    rw [lookupKey_dictSet_self]
  simp [ideaConfOK, getKey, hoc', hex', confIsInt, coerceElems_ok_examples hcoe]

theorem fieldIsList_arr {v : Json} (h : fieldIsList v = true) :
    ∃ l, v = .arr l := by
  cases v <;> simp [fieldIsList] at h ⊢

theorem fieldIsList_arr_true (l : List Json) :
    fieldIsList (.arr l) = true := rfl

/-- A validated-then-coerced report keeps all six fields well-typed,
holds only integer confidences, and carries an `error` key exactly when
the parsed model output did. -/
theorem coerce_ok_shape {p r : Json}
    (hv : validate_response_structure p = .ok ())
    (hc : coerceConfidences p = .ok r) :
    sixFieldsOK r = true ∧ allConf confIsInt r = true ∧
    hasErrorKey r = hasErrorKey p := by
  obtain ⟨v1, v2, v3, v4, v5, v6, hg1, ht1, hg2, ht2, hg3, ht3,
    hg4, ht4, hg5, ht5, hg6, ht6⟩ := validate_ok_spec hv
  obtain ⟨l, rfl⟩ := fieldIsList_arr ht2
  unfold coerceConfidences at hc
  split at hc
  · simp at hc
  rename_i ci hci
  split at hc
  · simp at hc
  rename_i ci' hcoe
  obtain ⟨kvs, rfl, hlk⟩ := pyGetItem_ok hci
  have hci_eq : ci = Json.arr l := by
    have hgk : getKey (Json.obj kvs) (sd "common_ideas") = some ci := by
      simp [getKey, hlk]
    rw [hgk] at hg2
    injection hg2
  subst hci_eq
  simp only [coerceElems] at hcoe
  rcases hml : mapME coerceIdea l with e | l'
  · rw [hml] at hcoe
    simp at hcoe
  rw [hml] at hcoe
  simp at hcoe
  subst hcoe
  obtain ⟨kvs2, heq2, rfl⟩ := pySetItem_ok hc
  have hkvs2 : kvs2 = kvs := by
    injection heq2 with h'
    exact h'.symm
  subst hkvs2
  have key_ne1 : sd "unrecoverable_lines" ≠ sd "common_ideas" := by decide
  have key_ne3 : sd "uncategorized_lines" ≠ sd "common_ideas" := by decide
  have key_ne4 : sd "summary" ≠ sd "common_ideas" := by decide
  have key_ne5 : sd "observations" ≠ sd "common_ideas" := by decide
  have key_ne6 : sd "recommendations" ≠ sd "common_ideas" := by decide
  have key_neE : sd "error" ≠ sd "common_ideas" := by decide
  have hgr : ∀ f : Str, f ≠ sd "common_ideas" →
      getKey (Json.obj (dictSet (sd "common_ideas") (Json.arr l') kvs2)) f =
        getKey (Json.obj kvs2) f := by
    intro f hf
    simp [getKey, lookupKey_dictSet_ne hf]
  have hgc : getKey (Json.obj (dictSet (sd "common_ideas") (Json.arr l') kvs2))
      (sd "common_ideas") = some (Json.arr l') := by
    simp [getKey, lookupKey_dictSet_self]
  refine ⟨?_, ?_, ?_⟩
  · simp [sixFieldsOK, hgr _ key_ne1, hgr _ key_ne3, hgr _ key_ne4,
      hgr _ key_ne5, hgr _ key_ne6, hgc, hg1, hg3, hg4, hg5, hg6,
      ht1, ht3, ht4, ht5, ht6, fieldIsList_arr_true]
  · simp only [allConf, hgc, List.all_eq_true]
    intro idea' hidea'
    obtain ⟨x, _, hfx⟩ := mapME_ok_mem hml idea' hidea'
    exact coerceIdea_ok hfx
  · simp [hasErrorKey, hgr _ key_neE]

theorem errMsg_errObj_cons (c : Char) (m : Str) :
    errMsgNonempty (errObj (c :: m)) = true := rfl

theorem errMsg_errObjDebug_cons (c : Char) (m d : Str) :
    errMsgNonempty (errObjDebug (c :: m) d) = true := rfl

/-- Every message the exception ladder produces is non-empty. -/
theorem handlePyExc_nonempty (e : PyExc) :
    errMsgNonempty (handlePyExc e) = true := by
  cases e <;> rfl

/-- Validation plus coercion of any parsed value yields either an error
payload with a non-empty message or a well-shaped report. -/
theorem afterParse_shape (parsed : Json) :
    errMsgNonempty (afterParse parsed) = true ∨
    (sixFieldsOK (afterParse parsed) = true ∧
      allConf confIsInt (afterParse parsed) = true) := by
  cases hv : validate_response_structure parsed with
  | error e =>
    have he : afterParse parsed = handlePyExc e := by simp [afterParse, hv]
    rw [he]
    exact .inl (handlePyExc_nonempty e)
  | ok u =>
    cases u
    cases hc : coerceConfidences parsed with
    | error e =>
      have he : afterParse parsed = handlePyExc e := by simp [afterParse, hv, hc]
      rw [he]
      exact .inl (handlePyExc_nonempty e)
    | ok r =>
      have he : afterParse parsed = r := by simp [afterParse, hv, hc]
      rw [he]
      obtain ⟨a, b, _⟩ := coerce_ok_shape hv hc
      exact .inr ⟨a, b⟩

/-- The pipeline boundary: for non-empty input and any oracle, the call
returns either an error payload with a non-empty message or a report
with all six fields and only integer confidences. -/
theorem analyze_shape (net : Str → Nat → Except Exc Str) (lines : List Str)
    (h : lines ≠ []) :
    errMsgNonempty (analyze_lessons net lines) = true ∨
    (sixFieldsOK (analyze_lessons net lines) = true ∧
      allConf confIsInt (analyze_lessons net lines) = true) := by
  unfold analyze_lessons
  rw [if_neg h]
  cases ho : (analyze_with_llm (net (create_llm_prompt lines))).outcome with
  | error e =>
    simp only [ho]
    exact .inl (errMsg_errObj_cons 'A' _)
  | ok raw =>
    simp only [ho]
    cases hp : pyJsonLoads (stripFencesStep raw) with
    | ok parsed =>
      simp only [hp]
      exact afterParse_shape parsed
    | error m1 =>
      simp only [hp]
      cases hp2 : pyJsonLoads (attempt_json_repair (stripFencesStep raw)) with
      | ok parsed =>
        simp only [hp2]
        exact afterParse_shape parsed
      | error m2 =>
        simp only [hp2]
        exact .inl (errMsg_errObjDebug_cons 'T' _ _)

/-- The scan `leadsWith p` accepts `p ++ rest`. -/
theorem leadsWith_append : ∀ p rest : Str, leadsWith p (p ++ rest) = true
  | [], _ => rfl
  | c :: p', rest => by simp [leadsWith, leadsWith_append p' rest]

/-- A match of a longer prefix is a match of its first part. -/
theorem leadsWith_append_left :
    ∀ p q s : Str, leadsWith (p ++ q) s = true → leadsWith p s = true
  | [], _, _, _ => rfl
  | c :: p', q, s, h => by
      cases s with
      | nil => simp [leadsWith] at h
      | cons d s' =>
        simp [leadsWith] at h ⊢
        exact ⟨h.1, leadsWith_append_left p' q s' h.2⟩

theorem dropWhile_pySpace_backtick (t : Str) :
    List.dropWhile pySpace ('`' :: t) = '`' :: t := by
  simp [List.dropWhile_cons, pySpace]

/-- Position of the first `{` when the left part holds none. -/
theorem firstIdx_append_cons :
    ∀ a : Str, '{' ∉ a → ∀ b : Str, firstIdx '{' (a ++ '{' :: b) = some a.length
  | [], _, b => by simp [firstIdx]
  | c :: a', h, b => by
      have hc : ¬ c = '{' := fun hh => h (hh ▸ List.mem_cons_self c a')
      have h' : '{' ∉ a' := fun hh => h (List.mem_cons_of_mem c hh)
      simp [firstIdx, hc, firstIdx_append_cons a' h' b]

/-- Fence-wrapped input: the cleanup yields the stripped inner content. -/
theorem stripFences_fenced (inner : Str) :
    stripFencesStep (sd "```json" ++ (inner ++ sd "```")) = pyStrip inner := by
  set whole := sd "```json" ++ (inner ++ sd "```") with hwhole
  have hrev3 : (sd "```").reverse = sd "```" := rfl
  have hrev7 : (sd "```json").reverse = sd "nosj```" := rfl
  have hrev : whole.reverse = '`' :: '`' :: '`' :: (inner.reverse ++ sd "nosj```") := by
    simp only [hwhole, List.reverse_append, hrev3, hrev7]
    rfl
  have hstrip : pyStrip whole = whole := by
    unfold pyStrip
    have h1 : List.dropWhile pySpace whole = whole := by
      rw [hwhole]
      exact dropWhile_pySpace_backtick _
    rw [h1, hrev, dropWhile_pySpace_backtick, ← hrev, List.reverse_reverse]
  have hlead : leadsWith (sd "```json") whole = true := leadsWith_append _ _
  have htrail : trailsWith (sd "```") whole = true := by
    unfold trailsWith
    rw [hrev3, hrev]
    exact leadsWith_append (sd "```") _
  have hlen : whole.length - 7 - 3 = inner.length := by
    simp [hwhole, List.length_append, sd]
  have hdrop : whole.drop 7 = inner ++ sd "```" := rfl
  have hslice : pySlice 7 3 whole = inner := by
    unfold pySlice
    rw [hdrop, hlen, List.take_left]
  unfold stripFencesStep
  rw [hstrip, if_pos ⟨hlead, htrail⟩, hslice]

/-- When the text ends in `}`, the regex extraction returns the span
from the first `{` through that final `}`, whatever lies between. -/
theorem extract_block (a b : Str) (ha : '{' ∉ a) :
    extract_json_from_text (a ++ '{' :: (b ++ ['}'])) = '{' :: (b ++ ['}']) := by
  set whole := a ++ '{' :: (b ++ ['}']) with hwhole
  have hassoc : whole = (a ++ '{' :: b) ++ ['}'] := by
    simp [hwhole]
  have hrev : whole.reverse = '}' :: (a ++ '{' :: b).reverse := by
    rw [hassoc]
    simp
  have htr1 : trailsWith (sd "\x7d") whole = true := by
    unfold trailsWith
    rw [hrev]
    simp [leadsWith, sd]
  have htake : whole.take (whole.length - 1) = a ++ '{' :: b := by
    rw [hassoc]
    have hl : ((a ++ '{' :: b) ++ ['}']).length - 1 = (a ++ '{' :: b).length := by
      simp
    rw [hl, List.take_left]
  have hfi : firstIdx '{' (whole.take (whole.length - 1)) = some a.length := by
    rw [htake]
    exact firstIdx_append_cons a ha b
  have htakeall : whole.take (whole.length - 1 + 1) = whole := by
    have hl : whole.length - 1 + 1 = whole.length := by
      rw [hassoc]
      simp
      omega
    rw [hl, List.take_length]
  unfold extract_json_from_text closeBraceEnd
  rw [htr1]
  simp only [if_pos]
  rw [hfi]
  rw [htakeall, hwhole]
  simp [List.drop_left]

/-- Without a final `}` (allowing one trailing newline) the extraction
falls back to the whole text. -/
theorem extract_no_brace_end (t : Str)
    (h1 : trailsWith (sd "\x7d") t = false) (h2 : trailsWith (sd "\x7d\n") t = false) :
    extract_json_from_text t = t := by
  unfold extract_json_from_text closeBraceEnd
  rw [h1, h2]
  simp

/-- Already-clean input (stripped, unfenced) passes through unchanged. -/
theorem stripFences_clean (s : Str) (hs : pyStrip s = s)
    (hn : leadsWith (sd "```") s = false) :
    stripFencesStep s = s := by
  have h7 : leadsWith (sd "```json") s = false := by
    cases hq : leadsWith (sd "```json") s
    · rfl
    · have hq3 : leadsWith (sd "```") s = true :=
        leadsWith_append_left (sd "```") (sd "json") s hq
      rw [hq3] at hn
      exact Bool.noConfusion hn
  unfold stripFencesStep
  rw [hs]
  rw [if_neg (fun hp => by rw [h7] at hp; exact absurd hp.1 (by simp))]
  rw [if_neg (fun hp => by rw [hn] at hp; exact absurd hp.1 (by simp))]

/-!
## The claims
-/

/-- C1 (counterexample): the model can return the confidence `150`;
`analyze_lessons` then returns it as a report — all six fields present,
all confidences integers, no `error` key — yet `150` is not in
`[0, 100]`, so the claimed range invariant fails on the code. -/
theorem C1_counterexample :
    sixFieldsOK (analyze_lessons (constNet resp150) inputLines) = true ∧
    allConf confIsInt (analyze_lessons (constNet resp150) inputLines) = true ∧
    hasErrorKey (analyze_lessons (constNet resp150) inputLines) = false ∧
    allConf confInRange (analyze_lessons (constNet resp150) inputLines) = false := by
  decide

/-- C1 (amended): for every non-empty input and every model response or
invocation failure, `analyze_lessons` returns either a report with all
six top-level fields present and every confidence an integer (not
necessarily within `[0, 100]`: the code never range-checks), or an
error payload whose `error` value is a non-empty string. -/
theorem C1_amended (net : Str → Nat → Except Exc Str) (lines : List Str)
    (h : lines ≠ []) :
    errMsgNonempty (analyze_lessons net lines) = true ∨
    (sixFieldsOK (analyze_lessons net lines) = true ∧
      allConf confIsInt (analyze_lessons net lines) = true) :=
  analyze_shape net lines h

theorem C1_amended_witness :
    inputLines ≠ [] ∧
    (errMsgNonempty (analyze_lessons (constNet respGood) inputLines) = true ∨
      (sixFieldsOK (analyze_lessons (constNet respGood) inputLines) = true ∧
        allConf confIsInt (analyze_lessons (constNet respGood) inputLines) = true)) :=
  ⟨by decide, C1_amended (constNet respGood) inputLines (by decide)⟩

/-- C2: on an empty line sequence `analyze_lessons` returns exactly
`{"error": "No input data provided"}`, for every oracle — the result
does not depend on the network at all, witnessing that no request is
issued and neither the prompt builder's output nor the invoker's answer
is consulted. -/
theorem C2_theorem (net : Str → Nat → Except Exc Str) :
    analyze_lessons net [] = errObj (sd "No input data provided") := rfl

theorem C2_witness :
    analyze_lessons (constNet respGood) [] =
      errObj (sd "No input data provided") :=
  C2_theorem (constNet respGood)

/-- C3: the claim is right and the code is wrong.  In the `openai`
library `AuthenticationError` is a subclass of `APIError`, which the
decorator's retry tuple contains, so an authentication failure is
retried: the invoker issues 5 requests with backoff delays
`[4, 4, 8, 16]` instead of issuing exactly one request and propagating
immediately. -/
theorem C3_theorem :
    Exc.isInst .authenticationError .apiError = true ∧
    isRetryable .authenticationError = true ∧
    analyze_with_llm authNet =
      ⟨.error .authenticationError, 5, [4, 4, 8, 16]⟩ ∧
    (analyze_with_llm authNet).requests ≠ 1 ∧
    (analyze_with_llm authNet).delays ≠ [] := by
  decide

/-- C4 (counterexample): two transient failures then success — the
invoker issues 3 requests, but the backoff delays are `[4, 4]`: the
first two delays are equal because they are clamped at the minimum
delay (4 s), not because they were capped at the maximum (30 s), so
they are not "strictly increasing, or equal once capped at the maximum
delay". -/
theorem C4_counterexample :
    analyze_with_llm flakyNet = ⟨.ok (sd "ok"), 3, [4, 4]⟩ ∧
    ¬ List.Chain' (fun a b => a < b ∨ (a = b ∧ b = 30)) [4, 4] := by
  refine ⟨by decide, fun hch => ?_⟩
  rcases List.chain'_cons.mp hch with ⟨h1, _⟩
  rcases h1 with h | ⟨_, h30⟩
  · exact absurd h (by decide)
  · exact absurd h30 (by decide)

/-- C4 (amended): with retryable failures on attempts `1..k-1` and
success on attempt `k ≤ 5`, the invoker returns the success after
exactly `k` requests with the backoff delays
`[waitExp 1, …, waitExp (k-1)]`, which are non-decreasing (consecutive
delays can be equal where the schedule is clamped at the 4-second
minimum, so "strictly increasing or equal once capped at the maximum"
must weaken to non-decreasing); and when all five attempts fail with
retryable errors, the most recent failure is re-raised. -/
theorem C4_amended :
    (∀ (f : Nat → Except Exc Str) (k : Nat) (r : Str),
      1 ≤ k → k ≤ 5 →
      (∀ i, 1 ≤ i → i < k → ∃ e, f i = .error e ∧ isRetryable e = true) →
      f k = .ok r →
      analyze_with_llm f =
        ⟨.ok r, k, (List.range (k - 1)).map fun i => waitExp (i + 1)⟩ ∧
      List.Chain' (· ≤ ·) ((List.range (k - 1)).map fun i => waitExp (i + 1))) ∧
    (∀ (f : Nat → Except Exc Str),
      (∀ i, 1 ≤ i → i ≤ 5 → ∃ e, f i = .error e ∧ isRetryable e = true) →
      ∀ e5, f 5 = .error e5 →
      analyze_with_llm f = ⟨.error e5, 5, [4, 4, 8, 16]⟩) := by
  constructor
  · intro f k r hk1 hk5 hfail hok
    interval_cases k
    · exact ⟨by simp [analyze_with_llm, retryAux, hok], by simp⟩
    · obtain ⟨e1, he1, hr1⟩ := hfail 1 (by omega) (by omega)
      refine ⟨by simp [analyze_with_llm, retryAux, he1, hr1, hok, waitExp,
        List.range_succ], ?_⟩
      simp [List.range_succ, waitExp]
    · obtain ⟨e1, he1, hr1⟩ := hfail 1 (by omega) (by omega)
      obtain ⟨e2, he2, hr2⟩ := hfail 2 (by omega) (by omega)
      refine ⟨by simp [analyze_with_llm, retryAux, he1, hr1, he2, hr2, hok,
        waitExp, List.range_succ], ?_⟩
      simp [List.range_succ, waitExp]
    · obtain ⟨e1, he1, hr1⟩ := hfail 1 (by omega) (by omega)
      obtain ⟨e2, he2, hr2⟩ := hfail 2 (by omega) (by omega)
      obtain ⟨e3, he3, hr3⟩ := hfail 3 (by omega) (by omega)
      refine ⟨by simp [analyze_with_llm, retryAux, he1, hr1, he2, hr2, he3,
        hr3, hok, waitExp, List.range_succ], ?_⟩
      simp [List.range_succ, waitExp]
    · obtain ⟨e1, he1, hr1⟩ := hfail 1 (by omega) (by omega)
      obtain ⟨e2, he2, hr2⟩ := hfail 2 (by omega) (by omega)
      obtain ⟨e3, he3, hr3⟩ := hfail 3 (by omega) (by omega)
      obtain ⟨e4, he4, hr4⟩ := hfail 4 (by omega) (by omega)
      refine ⟨by simp [analyze_with_llm, retryAux, he1, hr1, he2, hr2, he3,
        hr3, he4, hr4, hok, waitExp, List.range_succ], ?_⟩
      simp [List.range_succ, waitExp]
  · intro f hfail e5 he5
    obtain ⟨e1, he1, hr1⟩ := hfail 1 (by omega) (by omega)
    obtain ⟨e2, he2, hr2⟩ := hfail 2 (by omega) (by omega)
    obtain ⟨e3, he3, hr3⟩ := hfail 3 (by omega) (by omega)
    obtain ⟨e4, he4, hr4⟩ := hfail 4 (by omega) (by omega)
    simp [analyze_with_llm, retryAux, he1, hr1, he2, hr2, he3, hr3, he4,
      hr4, he5, waitExp]

theorem C4_amended_witness :
    (∀ i, 1 ≤ i → i < 3 →
      ∃ e, flakyNet i = .error e ∧ isRetryable e = true) ∧
    flakyNet 3 = .ok (sd "ok") ∧
    (analyze_with_llm flakyNet =
      ⟨.ok (sd "ok"), 3, (List.range 2).map fun i => waitExp (i + 1)⟩ ∧
    List.Chain' (· ≤ ·) ((List.range 2).map fun i => waitExp (i + 1))) := by
  refine ⟨fun i h1 h3 => ⟨.rateLimitError, ?_, by decide⟩, by decide, ?_⟩
  · interval_cases i <;> decide
  · exact C4_amended.1 flakyNet 3 (sd "ok") (by omega) (by omega)
      (fun i h1 h3 => ⟨.rateLimitError, by interval_cases i <;> decide, by decide⟩)
      (by decide)

/-- C5 (counterexample): the extraction step does not return "the last
top-level `{...}` block": on `{a} x {b}` it returns the whole span from
the first `{` to the final `}` (not `{b}`), and on `{a} trailing` — where
a top-level block exists but the text does not end in `}` — it falls
back to the full text instead of extracting `{a}`. -/
theorem C5_counterexample :
    extract_json_from_text (sd "\x7ba\x7d x \x7bb\x7d") = sd "\x7ba\x7d x \x7bb\x7d" ∧
    sd "\x7ba\x7d x \x7bb\x7d" ≠ sd "\x7bb\x7d" ∧
    extract_json_from_text (sd "\x7ba\x7d trailing") = sd "\x7ba\x7d trailing" ∧
    sd "\x7ba\x7d trailing" ≠ sd "\x7ba\x7d" := by
  decide

/-- C5 (amended): the pre-parse normalization trims whitespace and
strips a recognized code fence, and is the identity on already-clean
input; brace extraction (run during the repair pass) never raises and
yields the span from the first `{` to a final `}` — the final `}` must
close the text (a single trailing newline allowed) — falling back to
the full text when there is no such final `}`. -/
theorem C5_amended :
    (∀ s : Str, pyStrip s = s → leadsWith (sd "```") s = false →
      stripFencesStep s = s) ∧
    (∀ inner : Str,
      stripFencesStep (sd "```json" ++ (inner ++ sd "```")) = pyStrip inner) ∧
    (∀ a b : Str, '{' ∉ a →
      extract_json_from_text (a ++ '{' :: (b ++ ['}'])) = '{' :: (b ++ ['}'])) ∧
    (∀ t : Str, trailsWith (sd "\x7d") t = false → trailsWith (sd "\x7d\n") t = false →
      extract_json_from_text t = t) :=
  ⟨stripFences_clean, stripFences_fenced, extract_block, extract_no_brace_end⟩

theorem C5_amended_witness :
    (pyStrip (sd "ok") = sd "ok" ∧ leadsWith (sd "```") (sd "ok") = false ∧
      stripFencesStep (sd "ok") = sd "ok") ∧
    stripFencesStep (sd "```json" ++ (sd " \x7ba\x7d " ++ sd "```")) =
      pyStrip (sd " \x7ba\x7d ") ∧
    ('{' ∉ sd "note: " ∧
      extract_json_from_text (sd "note: " ++ '{' :: (sd "\"a\": 1" ++ ['}'])) =
        '{' :: (sd "\"a\": 1" ++ ['}'])) ∧
    (trailsWith (sd "\x7d") (sd "plain text") = false ∧
      trailsWith (sd "\x7d\n") (sd "plain text") = false ∧
      extract_json_from_text (sd "plain text") = sd "plain text") :=
  ⟨⟨by decide, by decide, C5_amended.1 (sd "ok") (by decide) (by decide)⟩,
   C5_amended.2.1 (sd " \x7ba\x7d "),
   ⟨by decide, C5_amended.2.2.1 (sd "note: ") (sd "\"a\": 1") (by decide)⟩,
   ⟨by decide, by decide, C5_amended.2.2.2 (sd "plain text") (by decide) (by decide)⟩⟩

/-- C6 (counterexample): not every response containing over-escaped
quotes is recovered by the repair pass: `\"title\" :` contains
`\"title\"` and fails strict parsing, and its repaired form
`"title" :` still fails to parse. -/
theorem C6_counterexample :
    (sd "\\\"title\\\"") <:+: badEsc ∧
    parseIsOk (pyJsonLoads badEsc) = false ∧
    parseIsOk (pyJsonLoads (attempt_json_repair badEsc)) = false := by
  decide

/-- C6 (amended): for the representative over-escaped object
`{\"title\": \"x\"}` the strict pass fails, and a single repair pass
(fence removal, trailing-block re-extraction, collapsing `\"` and
literal `\n`) yields text that parses to an object with `title` as a
plain key; parsing is re-attempted exactly once after repair (two
attempts in total), and a first-attempt success is never re-parsed. -/
theorem C6_amended :
    parseIsOk (pyJsonLoads goodEsc) = false ∧
    parseWithRepair goodEsc = (.ok (.obj [(sd "title", .str (sd "x"))]), 2) ∧
    (∀ (s : Str) (v : Json), pyJsonLoads s = .ok v →
      parseWithRepair s = (.ok v, 1)) := by
  refine ⟨by decide, by decide, fun s v h => ?_⟩
  simp [parseWithRepair, h]

theorem C6_amended_witness :
    pyJsonLoads (sd "\x7b\x7d") = .ok (.obj []) ∧
    parseWithRepair (sd "\x7b\x7d") = (.ok (.obj []), 1) :=
  ⟨by decide, C6_amended.2.2 (sd "\x7b\x7d") (.obj []) (by decide)⟩

/-- C7: confidence coercion — the string `"82"` and the float `82.0`
both coerce to the integer `82` (shown pointwise on the coercion
function and end-to-end: the returned report carries `82` both as the
idea's `overall_confidence`, fed the string, and as the example's
`confidence`, fed the float), while the non-numeric string `"high"`
makes `analyze_lessons` return a validation-failure error payload. -/
theorem C7_theorem :
    pyIntJson (.str (sd "82")) = .ok 82 ∧
    pyIntJson (.float 820 (-1)) = .ok 82 ∧
    pyIntJson (.str (sd "high")) =
      .error (.valueError (sd "invalid literal for int() with base 10: 'high'")) ∧
    analyze_lessons (constNet respGood) inputLines = reportGood ∧
    analyze_lessons (constNet respHigh) inputLines =
      errObj (sd "Analysis failed: invalid literal for int() with base 10: 'high'") := by
  decide

/-- C8 (counterexample): the code has no lenient configuration: on a
parsed output missing `summary` the only pipeline rejects with an error
payload naming the field — no variant backfills `summary: ""` and
accepts. -/
theorem C8_counterexample :
    analyze_lessons (constNet respNoSummary) inputLines =
      errObj (sd "Analysis failed: Missing or invalid field: summary") ∧
    hasErrorKey (analyze_lessons (constNet respNoSummary) inputLines) = true ∧
    getKey (analyze_lessons (constNet respNoSummary) inputLines) (sd "summary") =
      none := by
  decide

/-- C8 (amended): the pipeline implements only the strict variant:
validation never accepts a parsed output lacking a string `summary`
(so no backfilling ever happens), and a response missing `summary`
yields the error payload naming that field. -/
theorem C8_amended :
    (∀ p : Json, validate_response_structure p = .ok () →
      ∃ v, getKey p (sd "summary") = some v ∧ fieldIsStr v = true) ∧
    analyze_lessons (constNet respNoSummary) inputLines =
      errObj (sd "Analysis failed: Missing or invalid field: summary") := by
  constructor
  · intro p hp
    obtain ⟨v1, v2, v3, v4, v5, v6, hg1, ht1, hg2, ht2, hg3, ht3,
      hg4, ht4, hg5, ht5, hg6, ht6⟩ := validate_ok_spec hp
    exact ⟨v4, hg4, ht4⟩
  · decide

theorem C8_amended_witness :
    validate_response_structure parsedGood = .ok () ∧
    (∃ v, getKey parsedGood (sd "summary") = some v ∧ fieldIsStr v = true) :=
  ⟨by decide, C8_amended.1 parsedGood (by decide)⟩

/-- C9 (counterexample): a model output carrying all six required fields
plus an extra `error` key passes validation, and `analyze_lessons`
returns it unchanged — a successfully validated report that does contain
the key `error`, so the error-key test cannot distinguish the two
outcomes. -/
theorem C9_counterexample :
    analyze_lessons (constNet respWithError) inputLines = reportWithError ∧
    validate_response_structure reportWithError = .ok () ∧
    sixFieldsOK (analyze_lessons (constNet respWithError) inputLines) = true ∧
    hasErrorKey (analyze_lessons (constNet respWithError) inputLines) = true := by
  decide

/-- C9 (amended): every failure payload the pipeline itself builds
carries the `error` key, and a validated-and-coerced report carries
`error` exactly when the parsed model output already did — so the two
outcomes are distinguishable by the `error` key precisely for model
outputs that do not themselves contain one. -/
theorem C9_amended :
    (∀ p r : Json, validate_response_structure p = .ok () →
      coerceConfidences p = .ok r → hasErrorKey r = hasErrorKey p) ∧
    (∀ m : Str, hasErrorKey (errObj m) = true) ∧
    (∀ m d : Str, hasErrorKey (errObjDebug m d) = true) ∧
    (∀ e : PyExc, hasErrorKey (handlePyExc e) = true) := by
  refine ⟨fun p r hv hc => (coerce_ok_shape hv hc).2.2,
    fun m => rfl, fun m d => rfl, fun e => ?_⟩
  cases e <;> rfl

theorem C9_amended_witness :
    validate_response_structure parsedGood = .ok () ∧
    coerceConfidences parsedGood = .ok reportGood ∧
    hasErrorKey reportGood = hasErrorKey parsedGood :=
  ⟨by decide, by decide,
   C9_amended.1 parsedGood reportGood (by decide) (by decide)⟩

/-- C10: `int("82.5")` raises `ValueError` while `int(82.5)` truncates
to `82`: a confidence given as the string `"82.5"` makes
`analyze_lessons` return an error payload, while the same value as a
float yields a report carrying the integer `82`. -/
theorem C10_theorem :
    pyIntJson (.str (sd "82.5")) =
      .error (.valueError (sd "invalid literal for int() with base 10: '82.5'")) ∧
    pyIntJson (.float 825 (-1)) = .ok 82 ∧
    analyze_lessons (constNet respStr825) inputLines =
      errObj (sd "Analysis failed: invalid literal for int() with base 10: '82.5'") ∧
    analyze_lessons (constNet respFloat825) inputLines = report825 := by
  decide

end PostMortem
